import Mathlib

/-!
Shallow embedding of the LocalRide ride-booking application: the data model
(migration `20250901180005`), the two backend request handlers (`create-ride`
and `accept-ride` edge functions), and the driver-dashboard logic
(`availableRides` query, `handleStatusUpdate` / `updateRideStatus`).
-/

namespace LocalRide

/-- Ride status enum, from `CREATE TYPE public.ride_status AS ENUM
('pending', 'accepted', 'in_progress', 'completed', 'cancelled')`. -/
inductive RideStatus where
  | pending
  | accepted
  | in_progress
  | completed
  | cancelled
deriving DecidableEq

/-- A row of `public.profiles` (shape as used by the handlers:
`user_id`, `full_name`, `phone`, `user_type`). -/
structure Profile where
  user_id : Nat
  full_name : Option String
  phone : Option String
  user_type : String
deriving DecidableEq

/-- A row of `public.driver_profiles` (migration lines 18-30).
`vehicle_type` is kept as a `String` because the handlers receive it as
untyped JSON; the enum constraint is modelled by `validVehicleType`. -/
structure DriverProfile where
  user_id : Nat
  vehicle_type : String
  vehicle_number : String
  license_number : Option String
  is_available : Bool
deriving DecidableEq

/-- A row of `public.rides` (migration lines 33-52).  `driver_id` is
nullable (`REFERENCES ... ON DELETE SET NULL`), `status` has
`DEFAULT 'pending'`, `distance_km` / `final_fare` are nullable decimals. -/
structure Ride where
  id : Nat
  customer_id : Nat
  driver_id : Option Nat
  from_location : String
  to_location : String
  pickup_time : String
  vehicle_type : String
  distance_km : Option ℚ
  estimated_fare : Option ℤ
  final_fare : Option ℚ
  status : RideStatus
  notes : Option String
  created_at : Nat
deriving DecidableEq

/-- A row of `public.ride_notifications` (migration lines 55-62); only the
fields the handlers write are modelled. -/
structure RideNotification where
  ride_id : Nat
  user_id : Nat
  message : String
deriving DecidableEq

/-- The persisted store plus the identity service, as one state record.
`auth_users` is the set of user ids resolvable through
`supabase.auth.admin.getUserById`; `next_ride_id` models
`gen_random_uuid()` for ride inserts; `clock` models `now()` for
`created_at`. -/
structure DB where
  profiles : List Profile
  driver_profiles : List DriverProfile
  rides : List Ride
  ride_notifications : List RideNotification
  auth_users : List Nat
  next_ride_id : Nat
  clock : Nat
deriving DecidableEq

/-- The `throw` sites of the two handlers, one constructor per distinct
error path (the handler returns the message as `{error}` with status 400). -/
inductive HandlerError where
  /-- `'No authorization header'` / `'Unauthorized'`. -/
  | unauthorized
  /-- `'Customer profile not found'` (create-ride). -/
  | customerProfileNotFound
  /-- `throw rideError`: the store refused the ride insert (NOT NULL or
  `vehicle_type` enum constraint from the migration). -/
  | rideInsertFailed
  /-- `'Driver profile not found'` (accept-ride, `profiles` lookup). -/
  | driverProfileNotFound
  /-- `'Driver vehicle profile not found'` (accept-ride, `driver_profiles`). -/
  | driverVehicleProfileNotFound
  /-- `'Ride not found or already accepted'`. -/
  | rideUnavailable
  /-- `throw customerError`: customer `profiles` lookup after the update. -/
  | customerNotFound
  /-- `'Customer auth details not found'`. -/
  | customerAuthNotFound
deriving DecidableEq

/-! ### Fare estimator (create-ride lines 59-61) -/

/-- `const baseFare = vehicle_type === 'bike' ? 30 : vehicle_type === 'auto'
? 50 : 80;` — note every string other than `'bike'` / `'auto'` falls through
to `80`. -/
def baseFare (vehicle_type : String) : ℤ :=
  if vehicle_type = "bike" then 30 else if vehicle_type = "auto" then 50 else 80

/-- JavaScript `Math.round` on the (nonnegative) values that occur here:
round half up, `⌊x + 1/2⌋`. -/
def jsRound (x : ℚ) : ℤ := ⌊x + 1 / 2⌋

/-- `const estimatedFare = Math.round(baseFare + Math.random() * 100);`
with the outcome of `Math.random()` (a value in `[0, 1)`) passed in as
`rand`. -/
def estimatedFare (vehicle_type : String) (rand : ℚ) : ℤ :=
  jsRound ((baseFare vehicle_type : ℚ) + rand * 100)

/-- The store's `vehicle_type` enum (`'auto' | 'car' | 'bike'`). -/
def validVehicleType (v : String) : Bool :=
  v == "auto" || v == "car" || v == "bike"

/-! ### create-ride handler -/

/-- The JSON request body of create-ride; every field may be absent. -/
structure CreateRideRequest where
  from_location : Option String
  to_location : Option String
  pickup_time : Option String
  vehicle_type : Option String
  notes : Option String
deriving DecidableEq

/-- Notification text inserted by create-ride. -/
def rideCreatedMessage (from_loc to_loc : String) : String :=
  "Your ride request from " ++ from_loc ++ " to " ++ to_loc ++ " has been submitted."

/-- The create-ride edge function.  `auth` is the resolved caller identity
(`none` = missing/invalid bearer token), `rand` the outcome of
`Math.random()`.  Mirrors the handler order: auth check, customer profile
lookup, fare computation, ride insert (row defaults `status = 'pending'`,
`driver_id = NULL` from the migration; the insert fails when a NOT NULL
column is absent or `vehicle_type` is outside the enum), e-mail (best
effort, swallowed, not modelled), notification insert, response. -/
def createRide (auth : Option Nat) (rand : ℚ) (req : CreateRideRequest)
    (db : DB) : Except HandlerError Ride × DB :=
  match auth with
  | none => (.error .unauthorized, db)
  | some u =>
    match db.profiles.find? (fun p => p.user_id == u) with
    | none => (.error .customerProfileNotFound, db)
    | some _customerProfile =>
      match req.from_location, req.to_location, req.pickup_time, req.vehicle_type with
      | some fl, some tl, some pt, some vt =>
        if validVehicleType vt then
          let ride : Ride :=
            { id := db.next_ride_id
              customer_id := u
              driver_id := none
              from_location := fl
              to_location := tl
              pickup_time := pt
              vehicle_type := vt
              distance_km := none
              estimated_fare := some (estimatedFare vt rand)
              final_fare := none
              status := .pending
              notes := req.notes
              created_at := db.clock }
          let notif : RideNotification :=
            { ride_id := ride.id, user_id := u, message := rideCreatedMessage fl tl }
          (.ok ride,
            { db with
                rides := db.rides ++ [ride]
                ride_notifications := db.ride_notifications ++ [notif]
                next_ride_id := db.next_ride_id + 1 })
        else (.error .rideInsertFailed, db)
      | _, _, _, _ => (.error .rideInsertFailed, db)

/-! ### accept-ride handler -/

/-- Notification text for the customer on acceptance. -/
def rideAcceptedCustomerMessage (driver_name : Option String) : String :=
  "Your ride has been accepted by " ++ driver_name.getD "a driver" ++
    ". They will contact you shortly."

/-- Notification text for the driver on acceptance. -/
def rideAcceptedDriverMessage (from_loc to_loc : String) : String :=
  "You have successfully accepted a ride from " ++ from_loc ++ " to " ++ to_loc ++ "."

/-- The accept-ride edge function, mirroring the handler order: auth check,
caller `profiles` lookup, caller `driver_profiles` lookup, ride lookup
filtered by `id = ride_id AND status = 'pending'`, the ride update
(`driver_id`, `status` where `id = ride_id` — no status filter on the
update itself), then the post-update customer `profiles` lookup and
`auth.admin.getUserById` (each of which throws AFTER the update has been
applied), e-mails (swallowed / disabled), two notification inserts. -/
def acceptRide (auth : Option Nat) (ride_id : Nat) (db : DB) :
    Except HandlerError Unit × DB :=
  match auth with
  | none => (.error .unauthorized, db)
  | some u =>
    match db.profiles.find? (fun p => p.user_id == u) with
    | none => (.error .driverProfileNotFound, db)
    | some driverProfile =>
      match db.driver_profiles.find? (fun d => d.user_id == u) with
      | none => (.error .driverVehicleProfileNotFound, db)
      | some _driverVehicle =>
        match db.rides.find? (fun r => r.id == ride_id && r.status == .pending) with
        | none => (.error .rideUnavailable, db)
        | some ride =>
          let db1 : DB :=
            { db with
                rides := db.rides.map (fun r =>
                  if r.id == ride_id then
                    { r with driver_id := some u, status := .accepted }
                  else r) }
          match db1.profiles.find? (fun p => p.user_id == ride.customer_id) with
          | none => (.error .customerNotFound, db1)
          | some _customer =>
            if ride.customer_id ∈ db1.auth_users then
              let n1 : RideNotification :=
                { ride_id := ride_id, user_id := ride.customer_id
                  message := rideAcceptedCustomerMessage driverProfile.full_name }
              let n2 : RideNotification :=
                { ride_id := ride_id, user_id := u
                  message := rideAcceptedDriverMessage ride.from_location ride.to_location }
              (.ok (),
                { db1 with ride_notifications := db1.ride_notifications ++ [n1, n2] })
            else (.error .customerAuthNotFound, db1)

/-! ### Driver dashboard: ride status update (RideCard / updateRideStatus) -/

/-- A JavaScript number as relevant here: `NaN` or a rational value. -/
inductive JSNum where
  | nan
  | num (q : ℚ)
deriving DecidableEq

/-- JS truthiness of a number: `NaN` and `0` are falsy. -/
def JSNum.truthy : JSNum → Bool
  | .nan => false
  | .num q => q != 0

/-- The text-input strings of the RideCard form, modelled by the two
observations the code makes of them: emptiness (string truthiness in
`!distance || !fare`) and the result of `parseFloat`.  `numeric q` is a
non-empty string parsing to `q`; `nonNumeric` is a non-empty string whose
`parseFloat` is `NaN`. -/
inductive FieldInput where
  | empty
  | numeric (q : ℚ)
  | nonNumeric
deriving DecidableEq

/-- JS truthiness of the input string: empty is falsy. -/
def FieldInput.truthy : FieldInput → Bool
  | .empty => false
  | _ => true

/-- `parseFloat` on the input string. -/
def FieldInput.parseFloat : FieldInput → JSNum
  | .empty => .nan
  | .numeric q => .num q
  | .nonNumeric => .nan

/-- The argument object passed to `updateRideStatus.mutate`:
`{ rideId, status, distance?, fare? }`. -/
structure UpdateRideArgs where
  rideId : Nat
  status : RideStatus
  distance : Option JSNum
  fare : Option JSNum
deriving DecidableEq

/-- `RideCard.handleStatusUpdate` (part_000 lines 424-439): for
`'completed'`, checks only that both strings are truthy (non-empty) —
`if (!distance || !fare) toast.error(...); return;` — and otherwise passes
`parseFloat(distance)` / `parseFloat(fare)` along; any other status is
forwarded with no distance/fare.  Returns `none` when the client-side
check rejects (no request is issued). -/
def handleStatusUpdate (ride : Ride) (distance fare : FieldInput)
    (newStatus : RideStatus) : Option UpdateRideArgs :=
  if newStatus = .completed then
    if !distance.truthy || !fare.truthy then none
    else some
      { rideId := ride.id, status := .completed
        distance := some distance.parseFloat, fare := some fare.parseFloat }
  else some { rideId := ride.id, status := newStatus, distance := none, fare := none }

/-- The single `updateData` object built by the `updateRideStatus`
mutation (part_000 lines 191-204): `status` always, `distance_km` /
`final_fare` only when the corresponding number is truthy
(`if (distance) updateData.distance_km = distance` — so `undefined`,
`NaN` and `0` are all silently dropped). -/
structure RideUpdateData where
  status : RideStatus
  distance_km : Option ℚ
  final_fare : Option ℚ
deriving DecidableEq

/-- A truthy optional number, or nothing. -/
def jsNumField : Option JSNum → Option ℚ
  | some (.num q) => if q = 0 then none else some q
  | _ => none

/-- Builds `updateData` from the mutation arguments. -/
def updateDataOf (a : UpdateRideArgs) : RideUpdateData :=
  { status := a.status
    distance_km := jsNumField a.distance
    final_fare := jsNumField a.fare }

/-- Applying one store `update` to a ride row: columns absent from
`updateData` keep their old value. -/
def applyRideUpdate (u : RideUpdateData) (r : Ride) : Ride :=
  { r with
      status := u.status
      distance_km := match u.distance_km with
        | some q => some q
        | none => r.distance_km
      final_fare := match u.final_fare with
        | some q => some q
        | none => r.final_fare }

/-- End-to-end effect on the ride of one status-update attempt from the
RideCard: the client-side check either rejects (ride unchanged) or one
store update is issued. -/
def rideAfterStatusUpdate (r : Ride) (distance fare : FieldInput)
    (newStatus : RideStatus) : Ride :=
  match handleStatusUpdate r distance fare newStatus with
  | none => r
  | some a => applyRideUpdate (updateDataOf a) r

/-! ### Driver dashboard: available rides query (part_000 lines 74-94) -/

/-- The filter of the `availableRides` query:
`.eq('status', 'pending').eq('vehicle_type', driverProfile.vehicle_type)`. -/
def pendingMatch (dp_vehicle_type : String) (r : Ride) : Bool :=
  r.status == .pending && r.vehicle_type == dp_vehicle_type

/-- Insertion step of the `order('created_at', { ascending: true })`
result ordering. -/
def insertByCreatedAt (r : Ride) : List Ride → List Ride
  | [] => [r]
  | x :: xs =>
    if r.created_at ≤ x.created_at then r :: x :: xs else x :: insertByCreatedAt r xs

/-- Sorts rides by `created_at` ascending. -/
def sortByCreatedAt : List Ride → List Ride
  | [] => []
  | x :: xs => insertByCreatedAt x (sortByCreatedAt xs)

/-- The `availableRides` query: pending rides whose `vehicle_type` equals
the driver profile's, ordered by `created_at` ascending. -/
def availableRides (dp : DriverProfile) (rides : List Ride) : List Ride :=
  sortByCreatedAt (rides.filter (pendingMatch dp.vehicle_type))

/-! ### Decidability helper -/

instance {ε α : Type} [DecidableEq ε] [DecidableEq α] : DecidableEq (Except ε α) := fun x y =>
  match x, y with
  | .ok a, .ok b => if h : a = b then .isTrue (by rw [h]) else .isFalse (by simp [h])
  | .error a, .error b => if h : a = b then .isTrue (by rw [h]) else .isFalse (by simp [h])
  | .ok _, .error _ => .isFalse (by simp)
  | .error _, .ok _ => .isFalse (by simp)

/-! ### Sorting lemmas for the availableRides query -/

lemma mem_insertByCreatedAt (a r : Ride) (l : List Ride) :
    a ∈ insertByCreatedAt r l ↔ a = r ∨ a ∈ l := by
  induction l with
  | nil => simp [insertByCreatedAt]
  | cons x xs ih =>
    unfold insertByCreatedAt
    split
    · simp
    · rw [List.mem_cons, ih, List.mem_cons]
      tauto

lemma pairwise_insertByCreatedAt (r : Ride) (l : List Ride)
    (h : l.Pairwise (fun a b => a.created_at ≤ b.created_at)) :
    (insertByCreatedAt r l).Pairwise (fun a b => a.created_at ≤ b.created_at) := by
  induction l with
  | nil => simp [insertByCreatedAt]
  | cons x xs ih =>
    rw [List.pairwise_cons] at h
    obtain ⟨hx, hxs⟩ := h
    unfold insertByCreatedAt
    split
    · rename_i hle
      rw [List.pairwise_cons]
      refine ⟨?_, List.pairwise_cons.mpr ⟨hx, hxs⟩⟩
      intro b hb
      rcases List.mem_cons.mp hb with rfl | hb
      · exact hle
      · exact le_trans hle (hx b hb)
    · rename_i hgt
      rw [List.pairwise_cons]
      refine ⟨?_, ih hxs⟩
      intro b hb
      rcases (mem_insertByCreatedAt b r xs).mp hb with rfl | hb
      · omega
      · exact hx b hb

lemma mem_sortByCreatedAt (a : Ride) (l : List Ride) :
    a ∈ sortByCreatedAt l ↔ a ∈ l := by
  induction l with
  | nil => simp [sortByCreatedAt]
  | cons x xs ih =>
    unfold sortByCreatedAt
    rw [mem_insertByCreatedAt, ih, List.mem_cons]

lemma pairwise_sortByCreatedAt (l : List Ride) :
    (sortByCreatedAt l).Pairwise (fun a b => a.created_at ≤ b.created_at) := by
  induction l with
  | nil => simp [sortByCreatedAt]
  | cons x xs ih => exact pairwise_insertByCreatedAt x _ ih

/-! ### Claim theorems -/

/-- Claim C10: for every driver with a DriverProfile, the availableRides view
contains exactly the rides with `status = pending` whose `vehicle_type`
equals the driver's, ordered by `created_at` ascending. -/
theorem availableRides_exactly_pending_matching_sorted (dp : DriverProfile)
    (rides : List Ride) :
    (∀ r, r ∈ availableRides dp rides ↔
      r ∈ rides ∧ r.status = .pending ∧ r.vehicle_type = dp.vehicle_type) ∧
    (availableRides dp rides).Pairwise (fun a b => a.created_at ≤ b.created_at) := by
  constructor
  · intro r
    rw [availableRides, mem_sortByCreatedAt, List.mem_filter]
    simp [pendingMatch, and_assoc]
  · exact pairwise_sortByCreatedAt _

/-- Claim C2 counterexample: with `Math.random()` returning `0.999`, the bike
fare is `round(30 + 99.9) = 130`, which is not strictly below
`base(bike) + 100 = 130`; the spec's strict upper bound fails. -/
theorem estimatedFare_attains_upper_bound :
    baseFare "bike" = 30 ∧ ((999 : ℚ) / 1000 < 1) ∧
    estimatedFare "bike" (999 / 1000) = 130 ∧
    ¬(estimatedFare "bike" (999 / 1000) < baseFare "bike" + 100) := by
  have h : estimatedFare "bike" (999 / 1000) = 130 := by
    norm_num [estimatedFare, baseFare, jsRound]
  refine ⟨by decide, by norm_num, h, ?_⟩
  rw [h]
  decide

/-- Claim C2 (amended): for each enumerated vehicle type the estimated fare is
`round(base + random() * 100)`, and for every outcome of `random()` in
`[0, 1)` the fare lies in `[base, base + 100]` — the inclusive upper bound
`base + 100` is attained (for `random() ≥ 0.995`), so the bound is not
strict. -/
theorem estimatedFare_formula_and_bounds (vt : String) (rand : ℚ)
    (hv : validVehicleType vt = true) (h0 : 0 ≤ rand) (h1 : rand < 1) :
    estimatedFare vt rand = jsRound ((baseFare vt : ℚ) + rand * 100) ∧
    baseFare vt ≤ estimatedFare vt rand ∧
    estimatedFare vt rand ≤ baseFare vt + 100 := by
  refine ⟨rfl, ?_, ?_⟩
  · rw [estimatedFare, jsRound]
    refine Int.le_floor.mpr ?_
    nlinarith
  · rw [estimatedFare, jsRound]
    have h2 : ((baseFare vt : ℚ) + rand * 100 + 1 / 2) < ((baseFare vt + 101 : ℤ) : ℚ) := by
      push_cast
      nlinarith
    have h3 := Int.floor_lt.mpr h2
    omega

/-- Claim C2 witness: the amended bounds at `vehicle_type = "auto"`,
`random() = 1/2`. -/
theorem estimatedFare_formula_and_bounds_witness :
    validVehicleType "auto" = true ∧ (0 : ℚ) ≤ 1 / 2 ∧ (1 / 2 : ℚ) < 1 ∧
    (estimatedFare "auto" (1 / 2) = jsRound ((baseFare "auto" : ℚ) + (1 / 2) * 100) ∧
      baseFare "auto" ≤ estimatedFare "auto" (1 / 2) ∧
      estimatedFare "auto" (1 / 2) ≤ baseFare "auto" + 100) :=
  ⟨by decide, by norm_num, by norm_num,
    estimatedFare_formula_and_bounds "auto" (1 / 2) (by decide) (by norm_num) (by norm_num)⟩

/-- A store holding a single customer profile (user 10), for concrete
instances. -/
def dbCust : DB :=
  { profiles := [⟨10, some "Asha", some "111", "customer"⟩]
    driver_profiles := []
    rides := []
    ride_notifications := []
    auth_users := [10]
    next_ride_id := 1
    clock := 0 }

/-- Claim C6: every ride returned by a successful CreateRide call has
`status = pending` and `driver_id = null`, carries the computed estimated
fare, and a RideNotification addressed to the customer is persisted as
part of the call. -/
theorem createRide_success_post (auth : Option Nat) (rand : ℚ)
    (req : CreateRideRequest) (db : DB) (ride : Ride)
    (h : (createRide auth rand req db).1 = .ok ride) :
    ride.status = .pending ∧ ride.driver_id = none ∧
    (∃ vt, req.vehicle_type = some vt ∧
      ride.estimated_fare = some (estimatedFare vt rand)) ∧
    ride ∈ (createRide auth rand req db).2.rides ∧
    (createRide auth rand req db).2.ride_notifications =
      db.ride_notifications ++
        [⟨ride.id, ride.customer_id,
          rideCreatedMessage ride.from_location ride.to_location⟩] := by
  obtain ⟨f, t, pt, vt, nts⟩ := req
  cases auth with
  | none => simp [createRide] at h
  | some u =>
    cases hp : db.profiles.find? (fun p => p.user_id == u) with
    | none => simp [createRide, hp] at h
    | some cp =>
      rcases f with _ | fl <;> rcases t with _ | tl <;>
        rcases pt with _ | ptv <;> rcases vt with _ | vtv <;>
        simp [createRide, hp] at h ⊢
      split at h
      · rename_i hval
        injection h with h
        subst h
        simp [estimatedFare, hval]
      · simp at h

/-- Claim C6 witness: a concrete successful creation on `dbCust`. -/
theorem createRide_success_post_witness :
    (createRide (some 10) 0
      ⟨some "City Center", some "Airport", some "t1", some "car", none⟩ dbCust).1 =
      .ok ⟨1, 10, none, "City Center", "Airport", "t1", "car", none,
            some (estimatedFare "car" 0), none, .pending, none, 0⟩ ∧
    ((⟨1, 10, none, "City Center", "Airport", "t1", "car", none,
        some (estimatedFare "car" 0), none, .pending, none, 0⟩ : Ride).status = .pending ∧
      (⟨1, 10, none, "City Center", "Airport", "t1", "car", none,
        some (estimatedFare "car" 0), none, .pending, none, 0⟩ : Ride).driver_id = none ∧
      (∃ vt, (⟨some "City Center", some "Airport", some "t1", some "car",
          none⟩ : CreateRideRequest).vehicle_type = some vt ∧
        (⟨1, 10, none, "City Center", "Airport", "t1", "car", none,
          some (estimatedFare "car" 0), none, .pending, none, 0⟩ : Ride).estimated_fare =
          some (estimatedFare vt 0)) ∧
      (⟨1, 10, none, "City Center", "Airport", "t1", "car", none,
        some (estimatedFare "car" 0), none, .pending, none, 0⟩ : Ride) ∈
        (createRide (some 10) 0
          ⟨some "City Center", some "Airport", some "t1", some "car", none⟩ dbCust).2.rides ∧
      (createRide (some 10) 0
        ⟨some "City Center", some "Airport", some "t1", some "car", none⟩ dbCust).2.ride_notifications =
        dbCust.ride_notifications ++
          [⟨(⟨1, 10, none, "City Center", "Airport", "t1", "car", none,
              some (estimatedFare "car" 0), none, .pending, none, 0⟩ : Ride).id,
            (⟨1, 10, none, "City Center", "Airport", "t1", "car", none,
              some (estimatedFare "car" 0), none, .pending, none, 0⟩ : Ride).customer_id,
            rideCreatedMessage "City Center" "Airport"⟩]) :=
  ⟨rfl, createRide_success_post (some 10) 0 _ dbCust _ rfl⟩

/-- Claim C8: a CreateRide request missing any of the four required booking
fields is rejected (the store's NOT NULL constraints refuse the insert and
the handler surfaces that failure) and no ride row is created. -/
theorem createRide_missing_field_rejected (u : Nat) (rand : ℚ)
    (req : CreateRideRequest) (db : DB)
    (hp : (db.profiles.find? (fun p => p.user_id == u)).isSome = true)
    (hm : req.from_location = none ∨ req.to_location = none ∨
      req.pickup_time = none ∨ req.vehicle_type = none) :
    createRide (some u) rand req db = (.error .rideInsertFailed, db) := by
  obtain ⟨p, hp'⟩ := Option.isSome_iff_exists.mp hp
  obtain ⟨f, t, pt, vt, nts⟩ := req
  rcases f with _ | fl <;> rcases t with _ | tl <;>
    rcases pt with _ | ptv <;> rcases vt with _ | vtv <;>
    simp_all [createRide]

/-- Claim C8 witness: a request with `pickup_time` absent is rejected and the
store is unchanged. -/
theorem createRide_missing_field_rejected_witness :
    ((dbCust.profiles.find? (fun p => p.user_id == 10)).isSome = true) ∧
    ((⟨some "A", some "B", none, some "car", none⟩ : CreateRideRequest).from_location = none ∨
      (⟨some "A", some "B", none, some "car", none⟩ : CreateRideRequest).to_location = none ∨
      (⟨some "A", some "B", none, some "car", none⟩ : CreateRideRequest).pickup_time = none ∨
      (⟨some "A", some "B", none, some "car", none⟩ : CreateRideRequest).vehicle_type = none) ∧
    createRide (some 10) 0 ⟨some "A", some "B", none, some "car", none⟩ dbCust =
      (.error .rideInsertFailed, dbCust) :=
  ⟨by decide, Or.inr (Or.inr (Or.inl rfl)),
    createRide_missing_field_rejected 10 0 _ dbCust (by decide)
      (Or.inr (Or.inr (Or.inl rfl)))⟩

/-- Claim C3 counterexample: the fare estimator silently defaults an unknown
vehicle type to the car base fare `80` — the value IS silently defaulted
to some base fare, and the rejection comes from the store's enum
constraint (surfaced insert error), not a handler-level validation. -/
theorem createRide_unknown_vehicle_defaults_base :
    baseFare "scooter" = baseFare "car" ∧ baseFare "scooter" = 80 ∧
    createRide (some 10) 0
      ⟨some "City Center", some "Airport", some "t1", some "scooter", none⟩ dbCust =
      (.error .rideInsertFailed, dbCust) := by
  refine ⟨by decide, by decide, ?_⟩
  rfl

/-- Claim C3 (amended): a CreateRide request whose `vehicle_type` is outside
{auto, car, bike} is rejected — the store's `vehicle_type` enum refuses
the insert, the handler surfaces that store error (there is no
handler-level validation), and no ride row is created — but the fare
estimator silently defaults the base fare of the unknown type to `80`
(the car base) rather than treating it as invalid input. -/
theorem createRide_invalid_vehicle_rejected (u : Nat) (rand : ℚ) (db : DB)
    (fl tl ptv vtv : String) (nts : Option String)
    (hp : (db.profiles.find? (fun p => p.user_id == u)).isSome = true)
    (hv : validVehicleType vtv = false) :
    createRide (some u) rand ⟨some fl, some tl, some ptv, some vtv, nts⟩ db =
      (.error .rideInsertFailed, db) ∧
    baseFare vtv = 80 := by
  obtain ⟨p, hp'⟩ := Option.isSome_iff_exists.mp hp
  have h1 : vtv ≠ "bike" := by
    intro h
    subst h
    simp [validVehicleType] at hv
  have h2 : vtv ≠ "auto" := by
    intro h
    subst h
    simp [validVehicleType] at hv
  constructor
  · simp [createRide, hp', hv]
  · simp [baseFare, h1, h2]

/-- Claim C3 witness: the amended behaviour at `vehicle_type = "scooter"`. -/
theorem createRide_invalid_vehicle_rejected_witness :
    ((dbCust.profiles.find? (fun p => p.user_id == 10)).isSome = true) ∧
    validVehicleType "scooter" = false ∧
    (createRide (some 10) 0 ⟨some "A", some "B", some "t", some "scooter", none⟩ dbCust =
        (.error .rideInsertFailed, dbCust) ∧
      baseFare "scooter" = 80) :=
  ⟨by decide, by decide,
    createRide_invalid_vehicle_rejected 10 0 dbCust "A" "B" "t" "scooter" none
      (by decide) (by decide)⟩

/-- After the accept-ride update has committed, no ride with the accepted
id still matches the `id = ride_id AND status = 'pending'` filter. -/
lemma find?_pending_after_accept (rides : List Ride) (rid u : Nat) :
    (rides.map (fun r =>
      if r.id == rid then { r with driver_id := some u, status := RideStatus.accepted }
      else r)).find? (fun r => r.id == rid && r.status == RideStatus.pending) = none := by
  rw [List.find?_eq_none]
  intro x hx
  obtain ⟨r, hr, rfl⟩ := List.mem_map.mp hx
  cases h : r.id == rid <;> simp [h]

/-- A store with one pending ride (id 1, customer 10, vehicle "car") and
two onboarded drivers (20 and 21), for concrete acceptance instances. -/
def dbAcc : DB :=
  { profiles := [⟨10, some "Asha", some "111", "customer"⟩,
      ⟨20, some "Dev", some "222", "rider"⟩, ⟨21, some "Esha", some "333", "rider"⟩]
    driver_profiles := [⟨20, "car", "KA-01", none, true⟩, ⟨21, "car", "KA-02", none, true⟩]
    rides := [⟨1, 10, none, "City Center", "Airport", "t1", "car", none, some 100, none,
      .pending, none, 5⟩]
    ride_notifications := []
    auth_users := [10, 20, 21]
    next_ride_id := 2
    clock := 6 }

/-- Characterization of a successful accept-ride call: the ride row is
updated in place and exactly two notifications are appended. -/
lemma acceptRide_ok_state (u rid : Nat) (db : DB) (p : Profile)
    (d : DriverProfile) (ride : Ride) (c : Profile)
    (hp : db.profiles.find? (fun q => q.user_id == u) = some p)
    (hd : db.driver_profiles.find? (fun q => q.user_id == u) = some d)
    (hr : db.rides.find? (fun r => r.id == rid && r.status == RideStatus.pending) =
      some ride)
    (hc : db.profiles.find? (fun q => q.user_id == ride.customer_id) = some c)
    (hauth : ride.customer_id ∈ db.auth_users) :
    acceptRide (some u) rid db =
      (.ok (), { db with
        rides := db.rides.map (fun r =>
          if r.id == rid then { r with driver_id := some u, status := RideStatus.accepted }
          else r)
        ride_notifications := db.ride_notifications ++
          [⟨rid, ride.customer_id, rideAcceptedCustomerMessage p.full_name⟩,
            ⟨rid, u, rideAcceptedDriverMessage ride.from_location ride.to_location⟩] }) := by
  simp only [acceptRide, hp, hd, hr, hc]
  simp [hauth]

/-- Claim C1: AcceptRide fails with RideUnavailable exactly when no ride with
`id = ride_id` and `status = pending` exists, and of two sequential
AcceptRide calls on the same ride at most one succeeds — once the first
has committed, the second observes RideUnavailable. -/
theorem acceptRide_unavailable_iff_and_single_winner (db : DB) (u1 u2 rid : Nat)
    (hp1 : (db.profiles.find? (fun p => p.user_id == u1)).isSome = true)
    (hd1 : (db.driver_profiles.find? (fun d => d.user_id == u1)).isSome = true)
    (hp2 : (db.profiles.find? (fun p => p.user_id == u2)).isSome = true)
    (hd2 : (db.driver_profiles.find? (fun d => d.user_id == u2)).isSome = true) :
    ((acceptRide (some u1) rid db).1 = .error .rideUnavailable ↔
      ∀ r ∈ db.rides, ¬(r.id = rid ∧ r.status = .pending)) ∧
    ((acceptRide (some u1) rid db).1 = .ok () →
      (acceptRide (some u2) rid (acceptRide (some u1) rid db).2).1 =
        .error .rideUnavailable) := by
  obtain ⟨p1, hp1'⟩ := Option.isSome_iff_exists.mp hp1
  obtain ⟨d1, hd1'⟩ := Option.isSome_iff_exists.mp hd1
  obtain ⟨p2, hp2'⟩ := Option.isSome_iff_exists.mp hp2
  obtain ⟨d2, hd2'⟩ := Option.isSome_iff_exists.mp hd2
  constructor
  · constructor
    · intro habs r hrm hcon
      cases hr : db.rides.find? (fun r => r.id == rid && r.status == RideStatus.pending) with
      | none =>
        have hnone := List.find?_eq_none.mp hr r hrm
        simp [hcon.1, hcon.2] at hnone
      | some ride =>
        cases hc : db.profiles.find? (fun p => p.user_id == ride.customer_id) with
        | none => simp [acceptRide, hp1', hd1', hr, hc] at habs
        | some c =>
          by_cases hauth : ride.customer_id ∈ db.auth_users
          · simp [acceptRide, hp1', hd1', hr, hc, hauth] at habs
          · simp [acceptRide, hp1', hd1', hr, hc, hauth] at habs
    · intro hall
      cases hr : db.rides.find? (fun r => r.id == rid && r.status == RideStatus.pending) with
      | none => simp [acceptRide, hp1', hd1', hr]
      | some ride =>
        have hmem := List.mem_of_find?_eq_some hr
        have hpred := List.find?_some hr
        simp only [Bool.and_eq_true, beq_iff_eq] at hpred
        exact absurd ⟨hpred.1, hpred.2⟩ (hall ride hmem)
  · intro hok
    cases hr : db.rides.find? (fun r => r.id == rid && r.status == RideStatus.pending) with
    | none => simp [acceptRide, hp1', hd1', hr] at hok
    | some ride =>
      cases hc : db.profiles.find? (fun p => p.user_id == ride.customer_id) with
      | none => simp [acceptRide, hp1', hd1', hr, hc] at hok
      | some c =>
        by_cases hauth : ride.customer_id ∈ db.auth_users
        · rw [acceptRide_ok_state u1 rid db p1 d1 ride c hp1' hd1' hr hc hauth]
          simp only [acceptRide, hp2', hd2', find?_pending_after_accept]
        · simp [acceptRide, hp1', hd1', hr, hc, hauth] at hok

/-- Claim C1 witness: on `dbAcc`, driver 20 then driver 21 race for ride 1
sequentially; the second call observes RideUnavailable. -/
theorem acceptRide_unavailable_iff_and_single_winner_witness :
    ((dbAcc.profiles.find? (fun p => p.user_id == 20)).isSome = true) ∧
    ((dbAcc.driver_profiles.find? (fun d => d.user_id == 20)).isSome = true) ∧
    ((dbAcc.profiles.find? (fun p => p.user_id == 21)).isSome = true) ∧
    ((dbAcc.driver_profiles.find? (fun d => d.user_id == 21)).isSome = true) ∧
    (((acceptRide (some 20) 1 dbAcc).1 = .error .rideUnavailable ↔
        ∀ r ∈ dbAcc.rides, ¬(r.id = 1 ∧ r.status = .pending)) ∧
      ((acceptRide (some 20) 1 dbAcc).1 = .ok () →
        (acceptRide (some 21) 1 (acceptRide (some 20) 1 dbAcc).2).1 =
          .error .rideUnavailable)) :=
  ⟨by decide, by decide, by decide, by decide,
    acceptRide_unavailable_iff_and_single_winner dbAcc 20 21 1
      (by decide) (by decide) (by decide) (by decide)⟩

/-- Claim C7: on every successful AcceptRide call by driver `u` on ride `rid`,
the ride's `driver_id` is set to `u` and its status to accepted, and
exactly two RideNotification rows are appended: one addressed to the
ride's customer and one addressed to `u`. -/
theorem acceptRide_success_assigns_and_notifies (u rid : Nat) (db : DB)
    (h : (acceptRide (some u) rid db).1 = .ok ()) :
    (∃ r ∈ (acceptRide (some u) rid db).2.rides, r.id = rid) ∧
    (∀ r ∈ (acceptRide (some u) rid db).2.rides, r.id = rid →
      r.driver_id = some u ∧ r.status = .accepted) ∧
    (∃ ride ∈ db.rides, ride.id = rid ∧ ride.status = .pending ∧
      ∃ m1 m2, (acceptRide (some u) rid db).2.ride_notifications =
        db.ride_notifications ++ [⟨rid, ride.customer_id, m1⟩, ⟨rid, u, m2⟩]) := by
  cases hp : db.profiles.find? (fun p => p.user_id == u) with
  | none => simp [acceptRide, hp] at h
  | some p =>
  cases hd : db.driver_profiles.find? (fun d => d.user_id == u) with
  | none => simp [acceptRide, hp, hd] at h
  | some d =>
  cases hr : db.rides.find? (fun r => r.id == rid && r.status == RideStatus.pending) with
  | none => simp [acceptRide, hp, hd, hr] at h
  | some ride =>
  have hmem := List.mem_of_find?_eq_some hr
  have hpred := List.find?_some hr
  simp only [Bool.and_eq_true, beq_iff_eq] at hpred
  cases hc : db.profiles.find? (fun q => q.user_id == ride.customer_id) with
  | none => simp [acceptRide, hp, hd, hr, hc] at h
  | some c =>
  by_cases hauth : ride.customer_id ∈ db.auth_users
  case neg => simp [acceptRide, hp, hd, hr, hc, hauth] at h
  case pos =>
    rw [acceptRide_ok_state u rid db p d ride c hp hd hr hc hauth]
    refine ⟨⟨{ ride with driver_id := some u, status := .accepted }, ?_, hpred.1⟩, ?_, ?_⟩
    · simp only [List.mem_map]
      refine ⟨ride, hmem, ?_⟩
      simp [hpred.1]
    · intro r hrm hid
      obtain ⟨r0, hr0, rfl⟩ := List.mem_map.mp hrm
      cases h0 : r0.id == rid with
      | true => simp [h0]
      | false =>
        rw [h0] at hid
        simp at hid
        simp [hid] at h0
    · exact ⟨ride, hmem, hpred.1, hpred.2, _, _, rfl⟩

/-- Claim C7 witness: driver 20 successfully accepts ride 1 on `dbAcc`. -/
theorem acceptRide_success_assigns_and_notifies_witness :
    (acceptRide (some 20) 1 dbAcc).1 = .ok () ∧
    ((∃ r ∈ (acceptRide (some 20) 1 dbAcc).2.rides, r.id = 1) ∧
      (∀ r ∈ (acceptRide (some 20) 1 dbAcc).2.rides, r.id = 1 →
        r.driver_id = some 20 ∧ r.status = .accepted) ∧
      (∃ ride ∈ dbAcc.rides, ride.id = 1 ∧ ride.status = .pending ∧
        ∃ m1 m2, (acceptRide (some 20) 1 dbAcc).2.ride_notifications =
          dbAcc.ride_notifications ++ [⟨1, ride.customer_id, m1⟩, ⟨1, 20, m2⟩])) :=
  ⟨by decide, acceptRide_success_assigns_and_notifies 20 1 dbAcc (by decide)⟩

/-- A store like `dbAcc` whose customer (user 10) has a profile row but is
no longer resolvable through the identity admin API (`auth_users`). -/
def dbNoAuth : DB :=
  { profiles := [⟨10, some "Asha", some "111", "customer"⟩,
      ⟨20, some "Dev", some "222", "rider"⟩]
    driver_profiles := [⟨20, "car", "KA-01", none, true⟩]
    rides := [⟨1, 10, none, "City Center", "Airport", "t1", "car", none, some 100, none,
      .pending, none, 5⟩]
    ride_notifications := []
    auth_users := [20]
    next_ride_id := 2
    clock := 6 }

/-- Claim C5 counterexample: on `dbNoAuth`, AcceptRide by driver 20 returns an
error (the post-update customer auth lookup fails), yet the ride has
already been committed to `status = accepted` with `driver_id = 20` — the
call reports failure while the ride row was changed. -/
theorem acceptRide_error_after_commit :
    (acceptRide (some 20) 1 dbNoAuth).1 = .error .customerAuthNotFound ∧
    ∃ r ∈ (acceptRide (some 20) 1 dbNoAuth).2.rides,
      r.id = 1 ∧ r.status = .accepted ∧ r.driver_id = some 20 := by decide

/-- Claim C5 (amended): AcceptRide leaves the targeted ride unchanged only for
the failures that occur before the update — Unauthorized, missing caller
profile, missing driver profile, RideUnavailable; the update is issued
before the customer profile/auth lookups, so those two later failures
return an error with the ride already updated. -/
theorem acceptRide_pre_update_errors_preserve_state (a : Option Nat)
    (rid : Nat) (db : DB) (e : HandlerError)
    (h : (acceptRide a rid db).1 = .error e)
    (he : e = .unauthorized ∨ e = .driverProfileNotFound ∨
      e = .driverVehicleProfileNotFound ∨ e = .rideUnavailable) :
    (acceptRide a rid db).2 = db := by
  cases a with
  | none => rfl
  | some u =>
    cases hp : db.profiles.find? (fun p => p.user_id == u) with
    | none => simp [acceptRide, hp]
    | some p =>
    cases hd : db.driver_profiles.find? (fun d => d.user_id == u) with
    | none => simp [acceptRide, hp, hd]
    | some d =>
    cases hr : db.rides.find? (fun r => r.id == rid && r.status == RideStatus.pending) with
    | none => simp [acceptRide, hp, hd, hr]
    | some ride =>
    cases hc : db.profiles.find? (fun q => q.user_id == ride.customer_id) with
    | none =>
      simp [acceptRide, hp, hd, hr, hc] at h
      subst h
      simp at he
    | some c =>
    by_cases hauth : ride.customer_id ∈ db.auth_users
    case pos =>
      rw [acceptRide_ok_state u rid db p d ride c hp hd hr hc hauth] at h
      simp at h
    case neg =>
      simp [acceptRide, hp, hd, hr, hc, hauth] at h
      subst h
      simp at he

/-- Claim C5 witness: a caller with no profile row fails before the update and
the store is unchanged. -/
theorem acceptRide_pre_update_errors_preserve_state_witness :
    (acceptRide (some 99) 1 dbNoAuth).1 = .error .driverProfileNotFound ∧
    (HandlerError.driverProfileNotFound = .unauthorized ∨
      HandlerError.driverProfileNotFound = .driverProfileNotFound ∨
      HandlerError.driverProfileNotFound = .driverVehicleProfileNotFound ∨
      HandlerError.driverProfileNotFound = .rideUnavailable) ∧
    (acceptRide (some 99) 1 dbNoAuth).2 = dbNoAuth :=
  ⟨by decide, Or.inr (Or.inl rfl),
    acceptRide_pre_update_errors_preserve_state (some 99) 1 dbNoAuth
      .driverProfileNotFound (by decide) (Or.inr (Or.inl rfl))⟩

/-- A store where user 10 is both the customer of pending ride 1 (a "car"
ride) and an onboarded driver with vehicle type "bike" and
`user_type = "customer"`. -/
def dbSelf : DB :=
  { profiles := [⟨10, some "Asha", some "111", "customer"⟩]
    driver_profiles := [⟨10, "bike", "KA-09", none, true⟩]
    rides := [⟨1, 10, none, "City Center", "Airport", "t1", "car", none, some 100, none,
      .pending, none, 5⟩]
    ride_notifications := []
    auth_users := [10]
    next_ride_id := 2
    clock := 6 }

/-- Claim C9: AcceptRide checks neither vehicle-type match, nor the caller's
user_type, nor that the caller differs from the ride's customer: user 10 —
whose driver profile has vehicle type "bike" (the ride wants "car"), whose
user_type is "customer", and who is the ride's own customer — successfully
accepts their own ride. -/
theorem acceptRide_no_vehicle_or_role_check :
    (∃ r ∈ dbSelf.rides, r.id = 1 ∧ r.customer_id = 10 ∧ r.vehicle_type = "car") ∧
    (∃ d ∈ dbSelf.driver_profiles, d.user_id = 10 ∧ d.vehicle_type = "bike") ∧
    (∃ p ∈ dbSelf.profiles, p.user_id = 10 ∧ p.user_type = "customer") ∧
    (acceptRide (some 10) 1 dbSelf).1 = .ok () ∧
    (∀ r ∈ (acceptRide (some 10) 1 dbSelf).2.rides, r.id = 1 →
      r.driver_id = some 10 ∧ r.status = .accepted) := by decide

/-- An in-progress ride assigned to driver 20, for completion instances. -/
def rideActive : Ride :=
  ⟨7, 10, some 20, "City Center", "Airport", "t1", "car", none, some 100, none,
    .in_progress, none, 3⟩

/-- Claim C4 counterexample: with a non-empty but non-numeric distance string
and fare "150", the completion guard passes (it checks emptiness only, not
numericity), the status update is issued, and the ride ends `completed`
with `distance_km` silently dropped (`parseFloat` gave `NaN`, which is
falsy in `if (distance)`), contradicting "omitting either fails with
ValidationError and leaves the ride's status unchanged". -/
theorem completeRide_nonNumeric_passes :
    handleStatusUpdate rideActive .nonNumeric (.numeric 150) .completed ≠ none ∧
    (rideAfterStatusUpdate rideActive .nonNumeric (.numeric 150) .completed).status =
      .completed ∧
    (rideAfterStatusUpdate rideActive .nonNumeric (.numeric 150) .completed).distance_km =
      none ∧
    (rideAfterStatusUpdate rideActive .nonNumeric (.numeric 150) .completed).final_fare =
      some 150 := by decide

/-- Claim C4 (amended): the in_progress → completed transition requires
`distance_km` and `final_fare` to be non-empty form inputs: omitting
(leaving empty) either one fails client-side (error toast, no request) and
leaves the ride unchanged.  Numericity is NOT enforced: a non-empty
non-numeric value passes the guard and the transition proceeds with that
column silently dropped.  When both inputs parse to non-zero numbers,
`distance_km`, `final_fare` and `status` are carried in one single update
object and persisted together. -/
theorem completeRide_nonempty_guard_and_single_update (r : Ride)
    (d f : FieldInput) (qd qf : ℚ) (hd : qd ≠ 0) (hf : qf ≠ 0) :
    (handleStatusUpdate r .empty f .completed = none ∧
      rideAfterStatusUpdate r .empty f .completed = r) ∧
    (handleStatusUpdate r d .empty .completed = none ∧
      rideAfterStatusUpdate r d .empty .completed = r) ∧
    (handleStatusUpdate r (.numeric qd) (.numeric qf) .completed =
      some ⟨r.id, .completed, some (.num qd), some (.num qf)⟩ ∧
      updateDataOf ⟨r.id, .completed, some (.num qd), some (.num qf)⟩ =
        ⟨.completed, some qd, some qf⟩ ∧
      rideAfterStatusUpdate r (.numeric qd) (.numeric qf) .completed =
        { r with status := .completed, distance_km := some qd, final_fare := some qf }) := by
  refine ⟨⟨?_, ?_⟩, ⟨?_, ?_⟩, ?_, ?_, ?_⟩ <;>
    simp [handleStatusUpdate, rideAfterStatusUpdate, FieldInput.truthy,
      FieldInput.parseFloat, JSNum.truthy, updateDataOf, jsNumField,
      applyRideUpdate, hd, hf]

/-- Claim C4 witness: completing `rideActive` with distance "12.5" and fare
"150". -/
theorem completeRide_nonempty_guard_and_single_update_witness :
    (25 / 2 : ℚ) ≠ 0 ∧ (150 : ℚ) ≠ 0 ∧
    ((handleStatusUpdate rideActive .empty (.numeric 150) .completed = none ∧
        rideAfterStatusUpdate rideActive .empty (.numeric 150) .completed = rideActive) ∧
      (handleStatusUpdate rideActive .nonNumeric .empty .completed = none ∧
        rideAfterStatusUpdate rideActive .nonNumeric .empty .completed = rideActive) ∧
      (handleStatusUpdate rideActive (.numeric (25 / 2)) (.numeric 150) .completed =
        some ⟨rideActive.id, .completed, some (.num (25 / 2)), some (.num 150)⟩ ∧
        updateDataOf ⟨rideActive.id, .completed, some (.num (25 / 2)), some (.num 150)⟩ =
          ⟨.completed, some (25 / 2), some 150⟩ ∧
        rideAfterStatusUpdate rideActive (.numeric (25 / 2)) (.numeric 150) .completed =
          { rideActive with
              status := .completed
              distance_km := some (25 / 2)
              final_fare := some 150 })) :=
  ⟨by norm_num, by norm_num,
    completeRide_nonempty_guard_and_single_update rideActive .nonNumeric
      (.numeric 150) (25 / 2) 150 (by norm_num) (by norm_num)⟩

end LocalRide
